import Mathlib

/-!
# Cross-Process Trace Stitcher — verification development

Shallow embedding of the CI tracing CLI of `dynatrace-email-reporter`:

* `TraceCli` — `src/trace-cli.js` (first revision in the file): commands
  `start`, `start-child`, `end-child`, `end`.
* `TraceCliFinal` — the "FINAL VERSION" revision of `trace-cli.js`
  (`src/unnamed/part_010`).
* `TraceCliFs` — the file-hand-off revision (`src/unnamed/part_008`, second
  revision): the Context Carrier that serializes the trace context as
  base64-encoded JSON into `.trace_context` / `.child-*` files.

Each CLI invocation is a fresh short-lived process; it is modelled as a pure
function from the argument vector plus an environment (wall clock reading,
the random bytes drawn by the OpenTelemetry id generator, the transport
outcome of the log-ingestion POST, and — for `TraceCliFs` — the file system)
to an outcome record (stdout lines, POSTed payloads, ended spans, local log
lines, exit code).
-/

namespace CiTrace

/-- JS truthiness of a `string | null` value: `null` and `""` are falsy. -/
def truthy : Option String → Bool
  | none => false
  | some s => !(s == "")

/-- JS `x || d` on a `string | null` value `x`. -/
def jsOr (o : Option String) (d : String) : String :=
  match o with
  | some s => if s == "" then d else s
  | none => d

/-- `getArg` of `trace-cli.js`: find the first argument starting with
`--<key>=` and return JS `match.split('=')[1]` — the text between the
first `=` and the next `=` (or the end).  `null` when no argument
matches. -/
def getArg (args : List String) (key : String) : Option String :=
  match args.find? (fun a => List.isPrefixOf ("--" ++ key ++ "=").data a.data) with
  | some a =>
      some (String.mk (((a.data.dropWhile (fun c => !(c == '='))).drop 1).takeWhile
        (fun c => !(c == '='))))
  | none => none

/-- `stopTimer` of `trace-cli.js`:
`Date.now() - (timers[label] || Date.now())`.  Both `Date.now()` readings
happen inside one expression evaluation and are modelled as the single
instant `now`. -/
def stopTimer (timers : String → Option Int) (label : String) (now : Int) : Int :=
  now - ((timers label).getD now)

/-- The module-level `timers` map of a fresh process: empty. -/
def emptyTimers : String → Option Int := fun _ => none

/-- Lower-case hex digit for a value `< 16` (`0`–`9`, `a`–`f`). -/
def hexDigit (n : Nat) : Char :=
  if n < 10 then Char.ofNat (48 + n) else Char.ofNat (87 + n)

/-- Hex encoding of one byte: two lower-case hex digits. -/
def hexByte (b : Nat) : List Char :=
  [hexDigit (b / 16), hexDigit (b % 16)]

/-- Hex encoding of a byte list — models the OpenTelemetry
`RandomIdGenerator` turning its random bytes into a lower-case hex id. -/
def hexOfBytes (bs : List Nat) : List Char :=
  bs.foldr (fun b acc => hexByte b ++ acc) []

/-- Hex id string of a byte list. -/
def hexId (bs : List Nat) : String :=
  String.mk (hexOfBytes bs)

/-- A hex character, either case (OpenTelemetry validates ids with the
case-insensitive regex over `[0-9a-f]`). -/
def isHexChar (c : Char) : Bool :=
  (('0' ≤ c && c ≤ '9') || ('a' ≤ c && c ≤ 'f')) || ('A' ≤ c && c ≤ 'F')

/-- OpenTelemetry `isValidTraceId`: 32 hex characters, not all zero. -/
def isValidTraceId (s : String) : Bool :=
  s.length == 32 && s.data.all isHexChar && !(s.data.all (fun c => c == '0'))

/-- OpenTelemetry `isValidSpanId`: 16 hex characters, not all zero. -/
def isValidSpanId (s : String) : Bool :=
  s.length == 16 && s.data.all isHexChar && !(s.data.all (fun c => c == '0'))

/-- Models the SDK tracer's `startSpan` under an explicitly injected parent
span context: with a valid remote parent, the new span shares the parent's
`traceId` and receives a freshly generated `spanId`; with an invalid parent
context the tracer falls back to a new root, with fresh `traceId` and
`spanId`.  Returns the new span's `(traceId, spanId)`. -/
def childSpanContext (parentTraceId parentSpanId freshTraceId freshSpanId : String) :
    String × String :=
  if isValidTraceId parentTraceId && isValidSpanId parentSpanId then
    (parentTraceId, freshSpanId)
  else
    (freshTraceId, freshSpanId)

/-- The outcome of the log-ingestion `fetch` POST, supplied by the
environment: 2xx response, non-ok HTTP status with a body, or a thrown
network exception. -/
inductive TransportOutcome where
  | ok
  | httpError (status : Nat) (body : String)
  | thrown (msg : String)
deriving DecidableEq

/-- One structured log record sent to the log-ingestion endpoint.
`trace_id` / `span_id` are `Option String` because some revisions pass
`null` through.  Fields not present in a given revision are `none`. -/
structure Payload where
  timestamp : Int
  loglevel : String
  trace_id : Option String
  span_id : Option String
  service : String
  message : String
  step : String
  step_duration_ms : Option Int
  status : String
  log_source : Option String
deriving DecidableEq

/-- What one `logToDynatrace` call produced: the payload handed to `fetch`
(the POST is always attempted), the local winston log lines, and the
exception escaping the function (`none` always — the body is one
`try`/`catch` whose `catch` only logs). -/
structure EmitResult where
  posted : List Payload
  localLog : List String
  raised : Option String
deriving DecidableEq

/-- The `try` block of `logToDynatrace` up to the `res.ok` check: a non-ok
response throws `Dynatrace responded <status>: <body>`, a transport failure
rethrows the fetch exception. -/
def fetchAttempt (t : TransportOutcome) : Except String Unit :=
  match t with
  | .ok => .ok ()
  | .httpError status body =>
      .error ("Dynatrace responded " ++ toString status ++ ": " ++ body)
  | .thrown msg => .error msg

/-- `logToDynatrace` of `trace-cli.js`: POST the payload, log success
locally, and on any failure log locally and return normally — the `catch`
swallows the exception. -/
def logToDynatrace (t : TransportOutcome) (p : Payload) : EmitResult :=
  match fetchAttempt t with
  | .ok _ =>
      { posted := [p], localLog := ["✅ Log sent to Dynatrace"], raised := none }
  | .error e =>
      { posted := [p], localLog := ["❌ Log ingestion failed: " ++ e], raised := none }

/-- The observable outcome of one CLI process invocation. -/
structure CliOutcome where
  stdout : List String
  posts : List Payload
  endedSpans : List String
  localLog : List String
  exitCode : Nat
deriving DecidableEq

/-- Per-invocation environment: wall clock, the id-generator's random bytes
for the trace id and the span id created in this invocation, and the
transport outcome of any log-ingestion POST. -/
structure Env where
  now : Int
  traceRandom : List Nat
  spanRandom : List Nat
  transport : TransportOutcome

/-- Fresh 128-bit trace id drawn in this invocation. -/
def Env.freshTraceId (env : Env) : String := hexId env.traceRandom

/-- Fresh 64-bit span id drawn in this invocation. -/
def Env.freshSpanId (env : Env) : String := hexId env.spanRandom

end CiTrace

namespace TraceCli

open CiTrace

/-- `src/trace-cli.js` (first revision), the whole command dispatch.
`argv` is `process.argv.slice(2)`. -/
def runCli (argv : List String) (env : Env) : CliOutcome :=
  let command := argv.headD ""
  let step := jsOr (getArg argv "step") "Unnamed"
  let traceIdArg := getArg argv "trace-id"
  let parentSpanId := getArg argv "parent-span-id"
  let spanIdArg := getArg argv "span-id"
  if command == "start" then
    -- root span: fresh trace id and span id; span is NOT ended here
    { stdout := ["trace_id=" ++ env.freshTraceId,
                 "parent_span_id=" ++ env.freshSpanId],
      posts := [], endedSpans := [],
      localLog := ["🔷 Starting root span for " ++ step],
      exitCode := 0 }
  else if command == "start-child" then
    if !(truthy traceIdArg) || !(truthy parentSpanId) then
      { stdout := ["trace_id=" ++ jsOr traceIdArg "", "span_id="],
        posts := [], endedSpans := [],
        localLog := ["❌ Missing trace-id or parent-span-id"],
        exitCode := 1 }
    else
      let (tid, sid) := childSpanContext (traceIdArg.getD "") (parentSpanId.getD "")
        env.freshTraceId env.freshSpanId
      { stdout := ["trace_id=" ++ tid, "span_id=" ++ sid],
        posts := [], endedSpans := [],
        localLog := ["🟢 Starting child span: " ++ step],
        exitCode := 0 }
  else if command == "end-child" then
    if !(truthy traceIdArg) || !(truthy spanIdArg) then
      { stdout := ["trace_id=" ++ jsOr traceIdArg "", "span_id=" ++ jsOr spanIdArg ""],
        posts := [], endedSpans := [],
        localLog := ["❌ Missing trace-id or span-id"],
        exitCode := 1 }
    else
      -- no startTimer ran in this fresh process, so the timers map is empty
      let duration := stopTimer emptyTimers step env.now
      let emit := logToDynatrace env.transport
        { timestamp := env.now, loglevel := "INFO",
          trace_id := traceIdArg, span_id := spanIdArg,
          service := "github-ci-pipeline",
          message := "Step Completed: " ++ step, step := step,
          step_duration_ms := some duration, status := "completed",
          log_source := none }
      { stdout := ["trace_id=" ++ traceIdArg.getD "", "span_id=" ++ spanIdArg.getD ""],
        posts := emit.posted,
        endedSpans := [step ++ " - end"],
        localLog := ["🔴 Ending child span: " ++ step] ++ emit.localLog,
        exitCode := 0 }
  else if command == "end" then
    if !(truthy traceIdArg) || !(truthy spanIdArg) then
      { stdout := ["trace_id=" ++ jsOr traceIdArg "", "span_id=" ++ jsOr spanIdArg ""],
        posts := [], endedSpans := [],
        localLog := ["❌ Missing trace-id or root span-id for root span"],
        exitCode := 1 }
    else
      let emit := logToDynatrace env.transport
        { timestamp := env.now, loglevel := "INFO",
          trace_id := traceIdArg, span_id := spanIdArg,
          service := "github-ci-pipeline",
          message := "Root Trace Ended: " ++ step, step := step,
          step_duration_ms := none, status := "root-end",
          log_source := none }
      { stdout := ["trace_id=" ++ traceIdArg.getD "", "span_id=" ++ spanIdArg.getD ""],
        posts := emit.posted,
        endedSpans := [step ++ " - end"],
        localLog := ["🛑 Ending root span: " ++ step] ++ emit.localLog,
        exitCode := 0 }
  else
    { stdout := [], posts := [], endedSpans := [], localLog := [], exitCode := 0 }

end TraceCli

namespace TraceCliFinal

open CiTrace

/-- The "FINAL VERSION" revision of `trace-cli.js` (`src/unnamed/part_010`),
the whole command dispatch.  Differences from `TraceCli.runCli`: the step
name defaults to `"Unnamed Step"`; `start-child` and `end-child` print
nothing on a missing-identifier exit and `start-child` prints the supplied
trace id verbatim; `end-child` posts with the hardcoded status `"success"`
and a `log.source` field; the `end` branch performs no identifier check at
all and posts whatever `--trace-id` / `--parent-span-id` values were (or
were not) supplied. -/
def runCli (argv : List String) (env : Env) : CliOutcome :=
  let command := argv.headD ""
  let step := jsOr (getArg argv "step") "Unnamed Step"
  let traceId := getArg argv "trace-id"
  let parentSpanId := getArg argv "parent-span-id"
  let spanIdArg := getArg argv "span-id"
  if command == "start" then
    { stdout := ["trace_id=" ++ env.freshTraceId,
                 "parent_span_id=" ++ env.freshSpanId],
      posts := [], endedSpans := [],
      localLog := ["📍 Starting root trace: " ++ step],
      exitCode := 0 }
  else if command == "start-child" then
    if !(truthy traceId) || !(truthy parentSpanId) then
      { stdout := [], posts := [], endedSpans := [],
        localLog := ["📍 Starting child span: " ++ step,
                     "❌ Missing trace ID or parent span ID."],
        exitCode := 1 }
    else
      -- the printed trace id is the supplied argument verbatim; the span id
      -- is the fresh id of the span the tracer created
      let (_, sid) := childSpanContext (traceId.getD "") (parentSpanId.getD "")
        env.freshTraceId env.freshSpanId
      { stdout := ["trace_id=" ++ traceId.getD "", "span_id=" ++ sid],
        posts := [], endedSpans := [],
        localLog := ["📍 Starting child span: " ++ step],
        exitCode := 0 }
  else if command == "end-child" then
    -- stopTimer runs before the identifier check; the timers map is empty
    let duration := stopTimer emptyTimers "step_duration" env.now
    if !(truthy traceId) || !(truthy spanIdArg) then
      { stdout := [], posts := [], endedSpans := [],
        localLog := ["📍 Ending child span: " ++ step,
                     "❌ Missing trace ID or span ID to end."],
        exitCode := 1 }
    else
      let emit := logToDynatrace env.transport
        { timestamp := env.now, loglevel := "INFO",
          trace_id := traceId, span_id := spanIdArg,
          service := "github-ci-pipeline",
          message := "Step Completed: " ++ step, step := step,
          step_duration_ms := some duration, status := "success",
          log_source := some "/v1/api/trace-cli.js" }
      { stdout := [],
        posts := emit.posted,
        endedSpans := [step ++ " - complete"],
        localLog := ["📍 Ending child span: " ++ step] ++ emit.localLog,
        exitCode := 0 }
  else if command == "end" then
    -- no identifier check whatsoever in this revision
    let emit := logToDynatrace env.transport
      { timestamp := env.now, loglevel := "INFO",
        trace_id := traceId, span_id := parentSpanId,
        service := "github-ci-pipeline",
        message := "Trace ended: " ++ step, step := step,
        step_duration_ms := none, status := "trace-end",
        log_source := none }
    { stdout := [],
      posts := emit.posted,
      endedSpans := [step ++ " - trace-end"],
      localLog := ["📍 Ending root span: " ++ step] ++ emit.localLog,
      exitCode := 0 }
  else
    { stdout := [], posts := [], endedSpans := [], localLog := [], exitCode := 0 }

end TraceCliFinal

namespace B64

/-- Base64 alphabet character of a sextet `< 64`. -/
def encChar (n : Nat) : Char :=
  if n < 26 then Char.ofNat (65 + n)
  else if n < 52 then Char.ofNat (97 + (n - 26))
  else if n < 62 then Char.ofNat (48 + (n - 52))
  else if n = 62 then '+'
  else '/'

/-- Inverse base64 table.  `'='` and characters outside the alphabet map to
`none` — Node's base64 decoder skips them. -/
def decChar (c : Char) : Option Nat :=
  if 'A' ≤ c && c ≤ 'Z' then some (c.toNat - 65)
  else if 'a' ≤ c && c ≤ 'z' then some (c.toNat - 97 + 26)
  else if '0' ≤ c && c ≤ '9' then some (c.toNat - 48 + 52)
  else if c == '+' then some 62
  else if c == '/' then some 63
  else none

/-- Regroup bytes (values `< 256`) into base64 sextets, three bytes at a
time, with the standard short tail handling. -/
def enc3 : List Nat → List Nat
  | [] => []
  | [a] => [a / 4, a % 4 * 16]
  | [a, b] => [a / 4, a % 4 * 16 + b / 16, b % 16 * 4]
  | a :: b :: c :: rest =>
      a / 4 :: (a % 4 * 16 + b / 16) :: (b % 16 * 4 + c / 64) :: c % 64 :: enc3 rest

/-- Regroup sextets back into bytes, four sextets at a time, with the
standard short tail handling. -/
def dec4 : List Nat → List Nat
  | [] => []
  | [_] => []
  | [x, y] => [x * 4 + y / 16]
  | [x, y, z] => [x * 4 + y / 16, y % 16 * 16 + z / 4]
  | x :: y :: z :: w :: rest =>
      (x * 4 + y / 16) :: (y % 16 * 16 + z / 4) :: (z % 4 * 64 + w) :: dec4 rest

/-- Padding appended for a byte count `n`: `"=="` when `n % 3 = 1`, `"="`
when `n % 3 = 2`. -/
def padChars (n : Nat) : List Char :=
  if n % 3 = 1 then [ '=', '='] else if n % 3 = 2 then [ '='] else []

/-- Base64 encoding of a byte list, as characters. -/
def encodeBytes (bs : List Nat) : List Char :=
  (enc3 bs).map encChar ++ padChars bs.length

/-- Base64 decoding of a character list to bytes (non-alphabet characters,
including the `'='` padding, are skipped). -/
def decodeChars (cs : List Char) : List Nat :=
  dec4 (cs.filterMap decChar)

/-- `Buffer.from(s).toString('base64')` for an ASCII string `s`: the UTF-8
bytes of an ASCII string are the character codes. -/
def encodeStr (s : String) : String :=
  String.mk (encodeBytes (s.data.map Char.toNat))

/-- `Buffer.from(t, 'base64').toString('utf-8')` for base64 text whose
decoded bytes are ASCII. -/
def decodeStr (t : String) : String :=
  String.mk ((decodeChars t.data).map Char.ofNat)

end B64

namespace TraceCliFs

open CiTrace

/-- The trace context hand-off record written by `start` into
`.trace_context` (field order as in the source object literal). -/
structure TraceCtx where
  trace_id : String
  parent_span_id : String
deriving DecidableEq

/-- The child-span hand-off record written by `start-child` into
`.child-<step>`. -/
structure ChildRec where
  traceId : String
  spanId : String
  step : String
deriving DecidableEq

/-- `JSON.stringify(\x7btrace_id, parent_span_id\x7d)` on strings that need
no escaping. -/
def jsonOfCtx (c : TraceCtx) : String :=
  "\x7b\"trace_id\":\"" ++ c.trace_id ++ "\",\"parent_span_id\":\"" ++
    c.parent_span_id ++ "\"\x7d"

/-- `JSON.stringify(\x7btraceId, spanId, step\x7d)` on strings that need no
escaping. -/
def jsonOfChild (r : ChildRec) : String :=
  "\x7b\"traceId\":\"" ++ r.traceId ++ "\",\"spanId\":\"" ++ r.spanId ++
    "\",\"step\":\"" ++ r.step ++ "\"\x7d"

/-- Consume a literal prefix, returning the rest of the input. -/
def expectLit (pat s : List Char) : Option (List Char) :=
  if List.isPrefixOf pat s then some (s.drop pat.length) else none

/-- Consume a JSON string body up to (and including) the closing quote,
returning the body and the rest of the input. -/
def takeStr : List Char → Option (List Char × List Char)
  | [] => none
  | c :: rest =>
      if c = '"' then some ([], rest)
      else
        match takeStr rest with
        | some (v, r) => some (c :: v, r)
        | none => none

/-- `JSON.parse` restricted to the exact object shape produced by
`jsonOfCtx` (the only shape the Carrier ever writes into
`.trace_context`); any other content is treated as a parse failure. -/
def jsonParseCtx (s : String) : Option TraceCtx :=
  match expectLit "\x7b\"trace_id\":\"".data s.data with
  | none => none
  | some r1 =>
      match takeStr r1 with
      | none => none
      | some (tid, r2) =>
          match expectLit ",\"parent_span_id\":\"".data r2 with
          | none => none
          | some r3 =>
              match takeStr r3 with
              | none => none
              | some (psid, r4) =>
                  if r4 = "\x7d".data then some ⟨String.mk tid, String.mk psid⟩
                  else none

/-- `JSON.parse` restricted to the exact object shape produced by
`jsonOfChild`. -/
def jsonParseChild (s : String) : Option ChildRec :=
  match expectLit "\x7b\"traceId\":\"".data s.data with
  | none => none
  | some r1 =>
      match takeStr r1 with
      | none => none
      | some (tid, r2) =>
          match expectLit ",\"spanId\":\"".data r2 with
          | none => none
          | some r3 =>
              match takeStr r3 with
              | none => none
              | some (sid, r4) =>
                  match expectLit ",\"step\":\"".data r4 with
                  | none => none
                  | some r5 =>
                      match takeStr r5 with
                      | none => none
                      | some (st, r6) =>
                          if r6 = "\x7d".data then
                            some ⟨String.mk tid, String.mk sid, String.mk st⟩
                          else none

/-- Characters on which the modelled JSON/base64 layer is faithful to
`JSON.stringify`/`Buffer`: printable ASCII with no quote and no backslash
(such strings are emitted verbatim by `JSON.stringify`; hex identifiers
satisfy this). -/
def plainChar (c : Char) : Bool :=
  ((32 ≤ c.toNat && c.toNat < 128) && !(c == '"')) && !(c == '\\')

/-- `encode` of the Context Carrier: base64 of the JSON of the context. -/
def encodeCtx (c : TraceCtx) : String :=
  B64.encodeStr (jsonOfCtx c)

/-- `decode` of the Context Carrier: JSON-parse of the base64-decoded file
content. -/
def decodeCtx (raw : String) : Option TraceCtx :=
  jsonParseCtx (B64.decodeStr raw)

/-- The working directory, as (file name, content) pairs. -/
abbrev FS := List (String × String)

/-- `fs.existsSync`. -/
def existsSync (fs : FS) (name : String) : Bool :=
  fs.any (fun f => f.1 == name)

/-- `fs.readFileSync(...).toString()` (defined as `""` on a missing file —
the commands only read after an `existsSync` guard). -/
def readFileSync (fs : FS) (name : String) : String :=
  (((fs.find? (fun f => f.1 == name))).map Prod.snd).getD ""

/-- `fs.writeFileSync`: replace or create. -/
def writeFileSync (fs : FS) (name content : String) : FS :=
  (fs.filter (fun f => f.1 != name)) ++ [(name, content)]

/-- `fs.unlinkSync`. -/
def unlinkSync (fs : FS) (name : String) : FS :=
  fs.filter (fun f => f.1 != name)

/-- `step.replace(/\s+/g, '_')`: each maximal whitespace run becomes one
underscore. -/
def replWs : List Char → List Char
  | [] => []
  | c :: rest =>
      if c.isWhitespace then '_' :: replWs (rest.dropWhile Char.isWhitespace)
      else c :: replWs rest
termination_by l => l.length
decreasing_by
  · have := (List.dropWhile_sublist (l := rest) (p := Char.isWhitespace)).length_le
    simp only [List.length_cons]
    omega
  · simp only [List.length_cons]
    omega

/-- Sanitized step name used in the `.child-*` file name. -/
def sanitizeStep (s : String) : String :=
  String.mk (replWs s.data)

/-- How a process invocation terminated: a normal exit with a code, or an
uncaught exception (`JSON.parse` throwing on unparseable file content). -/
inductive RunStatus where
  | completed (exitCode : Nat)
  | crashed
deriving DecidableEq

/-- The observable outcome of one invocation of the file-hand-off revision,
including the resulting working directory. -/
structure FsOutcome where
  stdout : List String
  posts : List Payload
  endedSpans : List String
  status : RunStatus
  fs : FS
deriving DecidableEq

/-- `start` of `src/unnamed/part_008` (second revision): open a root span
(not ended), serialize its context as base64 JSON into `.trace_context`,
print the two id lines. -/
def startCmd (fs : FS) (env : Env) (_argv : List String) : FsOutcome :=
  let tid := env.freshTraceId
  let sid := env.freshSpanId
  { stdout := ["trace_id=" ++ tid, "parent_span_id=" ++ sid],
    posts := [], endedSpans := [],
    status := .completed 0,
    fs := writeFileSync fs ".trace_context" (encodeCtx ⟨tid, sid⟩) }

/-- `start-child` of `src/unnamed/part_008` (second revision). -/
def startChildCmd (fs : FS) (env : Env) (argv : List String) : FsOutcome :=
  let step := jsOr (getArg argv "step") "Unnamed Step"
  let traceId := getArg argv "trace-id"
  let parentSpanId := getArg argv "parent-span-id"
  if !(truthy traceId) || !(truthy parentSpanId) then
    { stdout := [], posts := [], endedSpans := [], status := .completed 1, fs := fs }
  else
    let (_, childSpanId) := childSpanContext (traceId.getD "") (parentSpanId.getD "")
      env.freshTraceId env.freshSpanId
    { stdout := ["trace_id=" ++ traceId.getD "", "span_id=" ++ childSpanId],
      posts := [], endedSpans := [],
      status := .completed 0,
      fs := writeFileSync fs (".child-" ++ sanitizeStep step)
        (B64.encodeStr (jsonOfChild ⟨traceId.getD "", childSpanId, step⟩)) }

/-- `end-child` of `src/unnamed/part_008` (second revision): the span id
comes from `--span-id`, falling back to the `.child-<step>` hand-off file
when the argument is absent. -/
def endChildCmd (fs : FS) (env : Env) (argv : List String) : FsOutcome :=
  let step := jsOr (getArg argv "step") "Unnamed Step"
  let traceId := getArg argv "trace-id"
  let spanId := getArg argv "span-id"
  let duration := stopTimer emptyTimers "step_duration" env.now
  let file := ".child-" ++ sanitizeStep step
  let actual : Except Unit (Option String) :=
    if truthy spanId then .ok spanId
    else if existsSync fs file then
      match jsonParseChild (B64.decodeStr (readFileSync fs file)) with
      | some r => .ok (some r.spanId)
      | none => .error ()
    else .ok spanId
  match actual with
  | .error _ =>
      { stdout := [], posts := [], endedSpans := [], status := .crashed, fs := fs }
  | .ok actualSpanId =>
      if !(truthy traceId) || !(truthy actualSpanId) then
        { stdout := [], posts := [], endedSpans := [], status := .completed 1, fs := fs }
      else
        let emit := logToDynatrace env.transport
          { timestamp := env.now, loglevel := "INFO",
            trace_id := traceId, span_id := actualSpanId,
            service := "github-ci-pipeline",
            message := "Step Completed: " ++ step, step := step,
            step_duration_ms := some duration, status := "success",
            log_source := some "/v1/api/trace-cli.js" }
        { stdout := [], posts := emit.posted,
          endedSpans := [step ++ " - complete"],
          status := .completed 0, fs := fs }

/-- `end` of `src/unnamed/part_008` (second revision): read and decode
`.trace_context` when present (an empty base context otherwise), close the
trace, POST a final record, then delete `.trace_context` and every
`.child-*` file. -/
def endCmd (fs : FS) (env : Env) (argv : List String) : FsOutcome :=
  let step := jsOr (getArg argv "step") "Unnamed Step"
  let base : Except Unit (Option TraceCtx) :=
    if existsSync fs ".trace_context" then
      match decodeCtx (readFileSync fs ".trace_context") with
      | some c => .ok (some c)
      | none => .error ()
    else .ok none
  match base with
  | .error _ =>
      { stdout := [], posts := [], endedSpans := [], status := .crashed, fs := fs }
  | .ok ctxOpt =>
      let emit := logToDynatrace env.transport
        { timestamp := env.now, loglevel := "INFO",
          trace_id := ctxOpt.map TraceCtx.trace_id,
          span_id := some env.freshSpanId,
          service := "github-ci-pipeline",
          message := "Trace ended: " ++ step, step := step,
          step_duration_ms := none, status := "completed",
          log_source := none }
      let fs1 := if existsSync fs ".trace_context" then unlinkSync fs ".trace_context" else fs
      let fs2 := fs1.filter (fun f => !(List.isPrefixOf ".child-".data f.1.data))
      { stdout := [], posts := emit.posted,
        endedSpans := [step ++ " Done - trace-end"],
        status := .completed 0, fs := fs2 }

end TraceCliFs

namespace CiTrace

/-- Concrete environment for evaluating the models on sample inputs. -/
def envW : Env :=
  { now := 1700000000000,
    traceRandom := [1, 2, 3, 4, 5, 6, 7, 8, 9, 10, 11, 12, 13, 14, 15, 16],
    spanRandom := [17, 18, 19, 20, 21, 22, 23, 24],
    transport := .ok }

/-- A second environment with different id-generator randomness. -/
def envW2 : Env :=
  { now := 1700000000555,
    traceRandom := [99, 2, 3, 4, 5, 6, 7, 8, 9, 10, 11, 12, 13, 14, 15, 16],
    spanRandom := [25, 26, 27, 28, 29, 30, 31, 32],
    transport := .ok }

/-- An environment whose log-ingestion POST fails with a 503. -/
def envFail : Env :=
  { envW with transport := .httpError 503 "Service Unavailable" }

/-- A valid 128-bit trace id used as a concrete argument. -/
def tidW : String := "0102030405060708090a0b0c0d0e0f10"

/-- A valid 64-bit span id used as a concrete argument. -/
def sidW : String := "1112131415161718"

/-- A concrete well-formed `end-child` argument vector. -/
def argvEndChild : List String :=
  ["end-child", "--step=Build", "--trace-id=" ++ tidW, "--span-id=" ++ sidW]

/-- A concrete well-formed `end` argument vector. -/
def argvEnd : List String :=
  ["end", "--step=Build", "--trace-id=" ++ tidW, "--span-id=" ++ sidW]

/-- A concrete well-formed `start-child` argument vector whose parent span
id differs from the fresh span id of `envW`. -/
def argvStartChild : List String :=
  ["start-child", "--step=Deploy", "--trace-id=" ++ tidW,
   "--parent-span-id=aaaaaaaaaaaaaaaa"]

/-- A concrete working directory holding a written trace context, a stale
child hand-off file and an unrelated file. -/
def fsW : TraceCliFs.FS :=
  [(".trace_context", TraceCliFs.encodeCtx ⟨tidW, sidW⟩),
   (".child-Build", "stale"),
   ("report.xlsx", "rows")]

/-- A concrete working directory with no hand-off file at all. -/
def fsNoCtx : TraceCliFs.FS :=
  [("report.xlsx", "rows")]

/-- A concrete log payload used to evaluate the Log Emitter. -/
def payloadW : Payload :=
  { timestamp := 1700000000000, loglevel := "INFO",
    trace_id := some tidW, span_id := some sidW,
    service := "github-ci-pipeline", message := "Step Completed: Build",
    step := "Build", step_duration_ms := some 0, status := "completed",
    log_source := none }

end CiTrace

namespace CiTrace

theorem logToDynatrace_posted (t : TransportOutcome) (p : Payload) :
    (logToDynatrace t p).posted = [p] := by
  cases t <;> rfl

theorem logToDynatrace_raised (t : TransportOutcome) (p : Payload) :
    (logToDynatrace t p).raised = none := by
  cases t <;> rfl

theorem logToDynatrace_localLog_ne (t : TransportOutcome) (p : Payload) :
    (logToDynatrace t p).localLog ≠ [] := by
  cases t <;> simp [logToDynatrace, fetchAttempt]

theorem stopTimer_empty (label : String) (now : Int) :
    stopTimer emptyTimers label now = 0 := by
  simp [stopTimer, emptyTimers]

theorem valid_traceId_truthy {s : String} (h : isValidTraceId s = true) :
    truthy (some s) = true := by
  have hlen : s.length = 32 := by
    simp only [isValidTraceId, Bool.and_eq_true, beq_iff_eq] at h
    exact h.1.1
  cases hbe : (s == "") with
  | true =>
      have hs : s = "" := eq_of_beq hbe
      subst hs
      simp at hlen
  | false => simp [truthy, hbe]

theorem valid_spanId_truthy {s : String} (h : isValidSpanId s = true) :
    truthy (some s) = true := by
  have hlen : s.length = 16 := by
    simp only [isValidSpanId, Bool.and_eq_true, beq_iff_eq] at h
    exact h.1.1
  cases hbe : (s == "") with
  | true =>
      have hs : s = "" := eq_of_beq hbe
      subst hs
      simp at hlen
  | false => simp [truthy, hbe]

theorem hexDigit_isHexChar : ∀ n, n < 16 → isHexChar (hexDigit n) = true := by
  decide

theorem hexDigit_inj : ∀ m, m < 16 → ∀ n, n < 16 → hexDigit m = hexDigit n → m = n := by
  decide

theorem hexOfBytes_cons (b : Nat) (rest : List Nat) :
    hexOfBytes (b :: rest) = hexByte b ++ hexOfBytes rest := rfl

theorem hexOfBytes_length (bs : List Nat) : (hexOfBytes bs).length = 2 * bs.length := by
  induction bs with
  | nil => rfl
  | cons b rest ih =>
      simp only [hexOfBytes_cons, hexByte, List.length_append, List.length_cons,
        List.length_nil, ih]
      omega

theorem hexOfBytes_hex (bs : List Nat) (hb : ∀ b ∈ bs, b < 256) :
    ∀ c ∈ hexOfBytes bs, isHexChar c = true := by
  induction bs with
  | nil => simp [hexOfBytes]
  | cons b rest ih =>
      intro c hc
      simp only [hexOfBytes_cons, hexByte, List.cons_append, List.nil_append,
        List.mem_cons] at hc
      have hblt : b < 256 := hb b (by simp)
      rcases hc with h1 | h2 | h3
      · exact h1 ▸ hexDigit_isHexChar (b / 16) (by omega)
      · exact h2 ▸ hexDigit_isHexChar (b % 16) (by omega)
      · exact ih (fun x hx => hb x (List.mem_cons_of_mem b hx)) c h3

theorem hexOfBytes_inj :
    ∀ (bs cs : List Nat), (∀ b ∈ bs, b < 256) → (∀ b ∈ cs, b < 256) →
      bs.length = cs.length → hexOfBytes bs = hexOfBytes cs → bs = cs := by
  intro bs
  induction bs with
  | nil =>
      intro cs _ _ hlen _
      cases cs with
      | nil => rfl
      | cons c cr => simp at hlen
  | cons b br ih =>
      intro cs hb hc hlen heq
      cases cs with
      | nil => simp at hlen
      | cons c cr =>
          simp only [hexOfBytes_cons, hexByte, List.cons_append,
            List.nil_append, List.cons.injEq] at heq
          have hblt : b < 256 := hb b (by simp)
          have hclt : c < 256 := hc c (by simp)
          obtain ⟨h1, h2, h3⟩ := heq
          have e1 : b / 16 = c / 16 :=
            hexDigit_inj (b / 16) (by omega) (c / 16) (by omega) h1
          have e2 : b % 16 = c % 16 :=
            hexDigit_inj (b % 16) (by omega) (c % 16) (by omega) h2
          have hbc : b = c := by omega
          have hrest : br = cr := by
            apply ih cr (fun x hx => hb x (List.mem_cons_of_mem b hx))
              (fun x hx => hc x (List.mem_cons_of_mem c hx))
            · simpa using hlen
            · exact h3
          rw [hbc, hrest]

theorem hexId_length (bs : List Nat) : (hexId bs).length = 2 * bs.length := by
  simpa [hexId, String.length] using hexOfBytes_length bs

theorem hexId_inj {bs cs : List Nat} (hb : ∀ b ∈ bs, b < 256)
    (hc : ∀ b ∈ cs, b < 256) (hlen : bs.length = cs.length)
    (hne : bs ≠ cs) : hexId bs ≠ hexId cs := by
  intro h
  exact hne (hexOfBytes_inj bs cs hb hc hlen (by
    have := congrArg String.data h
    simpa [hexId] using this))

end CiTrace

open CiTrace in
/-- C1 (amended): in `src/trace-cli.js`, `end-child` and `end` invoked with a
required identifier missing exit with code 1 and POST no log record, and
`end-child` with all identifiers present exits 0; the `end-child` of the
final revision (`part_010`) behaves the same — but that revision's `end`
performs no identifier check at all: it always completes with exit code 0
and POSTs one log record even when every identifier is absent. -/
theorem trace_cli_missing_identifier_behavior :
    (∀ (argv : List String) (env : Env),
      argv.headD "" = "end-child" →
      (truthy (getArg argv "trace-id") = false ∨ truthy (getArg argv "span-id") = false) →
      (TraceCli.runCli argv env).exitCode = 1 ∧ (TraceCli.runCli argv env).posts = []) ∧
    (∀ (argv : List String) (env : Env),
      argv.headD "" = "end" →
      (truthy (getArg argv "trace-id") = false ∨ truthy (getArg argv "span-id") = false) →
      (TraceCli.runCli argv env).exitCode = 1 ∧ (TraceCli.runCli argv env).posts = []) ∧
    (∀ (argv : List String) (env : Env),
      argv.headD "" = "end-child" →
      (truthy (getArg argv "trace-id") = false ∨ truthy (getArg argv "span-id") = false) →
      (TraceCliFinal.runCli argv env).exitCode = 1 ∧ (TraceCliFinal.runCli argv env).posts = []) ∧
    (∀ (argv : List String) (env : Env),
      argv.headD "" = "end-child" →
      truthy (getArg argv "trace-id") = true → truthy (getArg argv "span-id") = true →
      (TraceCli.runCli argv env).exitCode = 0 ∧ (TraceCliFinal.runCli argv env).exitCode = 0) ∧
    (∀ (argv : List String) (env : Env),
      argv.headD "" = "end" →
      (TraceCliFinal.runCli argv env).exitCode = 0 ∧
      (TraceCliFinal.runCli argv env).posts.length = 1) := by
  refine ⟨?_, ?_, ?_, ?_, ?_⟩
  · intro argv env hc hmiss
    rcases hmiss with h | h <;>
    · simp only [TraceCli.runCli, hc, h]
      simp
  · intro argv env hc hmiss
    rcases hmiss with h | h <;>
    · simp only [TraceCli.runCli, hc, h]
      simp
  · intro argv env hc hmiss
    rcases hmiss with h | h <;>
    · simp only [TraceCliFinal.runCli, hc, h]
      simp
  · intro argv env hc ht hs
    constructor <;>
    · simp only [TraceCli.runCli, TraceCliFinal.runCli, hc, ht, hs]
      simp [logToDynatrace_posted]
  · intro argv env hc
    constructor <;>
    · simp only [TraceCliFinal.runCli, hc]
      simp [logToDynatrace_posted]

open CiTrace in
/-- C1 counterexample: `end --step=Build` in the final revision
(`part_010`), with `--trace-id` and `--span-id`/`--parent-span-id` absent,
exits 0 (not 1) and POSTs one log record to the log-ingestion endpoint,
contradicting the claim that every such invocation exits non-zero with no
network call. -/
theorem trace_cli_end_unchecked_cex :
    (TraceCliFinal.runCli ["end", "--step=Build"] envW).exitCode = 0 ∧
    (TraceCliFinal.runCli ["end", "--step=Build"] envW).posts.length = 1 := by
  constructor <;> rfl

open CiTrace in
/-- C1 witness: the amended theorem evaluated at concrete invocations. -/
theorem trace_cli_missing_identifier_behavior_witness :
    ((TraceCli.runCli ["end-child", "--step=Build"] envW).exitCode = 1 ∧
     (TraceCli.runCli ["end-child", "--step=Build"] envW).posts = []) ∧
    ((TraceCli.runCli ["end", "--step=Build"] envW).exitCode = 1 ∧
     (TraceCli.runCli ["end", "--step=Build"] envW).posts = []) ∧
    (TraceCli.runCli argvEndChild envW).exitCode = 0 ∧
    (TraceCliFinal.runCli argvEndChild envW).exitCode = 0 :=
  ⟨trace_cli_missing_identifier_behavior.1 ["end-child", "--step=Build"] envW rfl (Or.inl rfl),
   trace_cli_missing_identifier_behavior.2.1 ["end", "--step=Build"] envW rfl (Or.inl rfl),
   trace_cli_missing_identifier_behavior.2.2.2.1 argvEndChild envW rfl rfl rfl⟩

open CiTrace in
/-- C2 (amended): the status field of the record emitted by `end-child` is
a hardcoded constant — `"completed"` in `src/trace-cli.js` and `"success"`
in the final revision — independent of any orchestrator-supplied outcome
(the CLI parses no status or error argument at all); the span is still
closed and the record still emitted, with exit code 0. -/
theorem end_child_status_hardcoded (argv : List String) (envA envB : Env)
    (hc : argv.headD "" = "end-child")
    (ht : truthy (getArg argv "trace-id") = true)
    (hs : truthy (getArg argv "span-id") = true) :
    ((TraceCli.runCli argv envA).posts.map Payload.status = ["completed"] ∧
     (TraceCli.runCli argv envA).endedSpans ≠ [] ∧
     (TraceCli.runCli argv envA).exitCode = 0) ∧
    ((TraceCliFinal.runCli argv envB).posts.map Payload.status = ["success"] ∧
     (TraceCliFinal.runCli argv envB).endedSpans ≠ [] ∧
     (TraceCliFinal.runCli argv envB).exitCode = 0) := by
  constructor <;>
  · simp only [TraceCli.runCli, TraceCliFinal.runCli, hc, ht, hs]
    simp [logToDynatrace_posted]

open CiTrace in
/-- C2 counterexample: an `end-child` invocation in which the orchestrator
passes `--status=failure --error=step failed` still emits a record whose
status is `"completed"`, not the supplied failure outcome. -/
theorem end_child_status_ignores_orchestrator_cex :
    (TraceCli.runCli (argvEndChild ++ ["--status=failure", "--error=step failed"])
      envW).posts.map Payload.status = ["completed"] ∧
    ("completed" : String) ≠ "failure" := by
  constructor
  · rfl
  · decide

open CiTrace in
/-- C2 witness: the amended theorem evaluated at a concrete invocation
(for the final revision, one whose POST fails with a 503 — the record is
still emitted and the exit code still 0). -/
theorem end_child_status_hardcoded_witness :
    ((TraceCli.runCli argvEndChild envW).posts.map Payload.status = ["completed"] ∧
     (TraceCli.runCli argvEndChild envW).endedSpans ≠ [] ∧
     (TraceCli.runCli argvEndChild envW).exitCode = 0) ∧
    ((TraceCliFinal.runCli argvEndChild envFail).posts.map Payload.status = ["success"] ∧
     (TraceCliFinal.runCli argvEndChild envFail).endedSpans ≠ [] ∧
     (TraceCliFinal.runCli argvEndChild envFail).exitCode = 0) :=
  end_child_status_hardcoded argvEndChild envW envFail rfl rfl rfl

open CiTrace in
/-- C3: `start-child` given a valid `(traceId, parentSpanId)` pair prints
`trace_id` equal to the supplied trace id and `span_id` equal to the
freshly generated span id, which differs from the supplied parent span id
(freshness of the id-generator output is the stated hypothesis); this
holds in both `src/trace-cli.js` and the final revision. -/
theorem start_child_same_trace_fresh_span (argv : List String) (env : Env)
    (tid psid : String)
    (hc : argv.headD "" = "start-child")
    (ht : getArg argv "trace-id" = some tid)
    (hp : getArg argv "parent-span-id" = some psid)
    (hvt : isValidTraceId tid = true)
    (hvp : isValidSpanId psid = true)
    (hfresh : hexId env.spanRandom ≠ psid) :
    (TraceCli.runCli argv env).stdout =
      ["trace_id=" ++ tid, "span_id=" ++ hexId env.spanRandom] ∧
    (TraceCliFinal.runCli argv env).stdout =
      ["trace_id=" ++ tid, "span_id=" ++ hexId env.spanRandom] ∧
    hexId env.spanRandom ≠ psid := by
  have htt := valid_traceId_truthy hvt
  have hpt := valid_spanId_truthy hvp
  refine ⟨?_, ?_, hfresh⟩ <;>
  · simp only [TraceCli.runCli, TraceCliFinal.runCli, hc, ht, hp, htt, hpt]
    simp [childSpanContext, hvt, hvp, Env.freshSpanId]

open CiTrace in
/-- C3 witness: the theorem evaluated at a concrete invocation. -/
theorem start_child_same_trace_fresh_span_witness :
    (TraceCli.runCli argvStartChild envW).stdout =
      ["trace_id=" ++ tidW, "span_id=" ++ hexId envW.spanRandom] ∧
    (TraceCliFinal.runCli argvStartChild envW).stdout =
      ["trace_id=" ++ tidW, "span_id=" ++ hexId envW.spanRandom] ∧
    hexId envW.spanRandom ≠ "aaaaaaaaaaaaaaaa" :=
  start_child_same_trace_fresh_span argvStartChild envW tidW "aaaaaaaaaaaaaaaa"
    rfl rfl rfl rfl rfl (by decide)

open CiTrace in
/-- C5: every `end-child` invocation is a fresh process whose timer map is
empty and in which no `startTimer` has run, so `stopTimer` falls back to
`Date.now()` and the `step_duration_ms` in the emitted record is always 0,
whatever the step's real duration was. -/
theorem end_child_duration_always_zero (argv : List String) (env : Env)
    (hc : argv.headD "" = "end-child")
    (ht : truthy (getArg argv "trace-id") = true)
    (hs : truthy (getArg argv "span-id") = true) :
    (TraceCli.runCli argv env).posts.length = 1 ∧
    ∀ p ∈ (TraceCli.runCli argv env).posts, p.step_duration_ms = some 0 := by
  simp only [TraceCli.runCli, hc, ht, hs]
  simp [logToDynatrace_posted, stopTimer_empty]

open CiTrace in
/-- C5 witness: the theorem evaluated at a concrete invocation. -/
theorem end_child_duration_always_zero_witness :
    (TraceCli.runCli argvEndChild envW).posts.length = 1 ∧
    ∀ p ∈ (TraceCli.runCli argvEndChild envW).posts, p.step_duration_ms = some 0 :=
  end_child_duration_always_zero argvEndChild envW rfl rfl rfl

open CiTrace in
/-- C7: `end` is not idempotent: every invocation with valid identifiers
performs exactly one POST to the log-ingestion endpoint, so two
invocations with the same arguments emit two log records — nothing
deduplicates the second call. -/
theorem end_not_idempotent (argv : List String) (e1 e2 : Env)
    (hc : argv.headD "" = "end")
    (ht : truthy (getArg argv "trace-id") = true)
    (hs : truthy (getArg argv "span-id") = true) :
    (TraceCli.runCli argv e1).posts.length = 1 ∧
    ((TraceCli.runCli argv e1).posts ++ (TraceCli.runCli argv e2).posts).length = 2 := by
  have hrun : ∀ e : Env, (TraceCli.runCli argv e).posts.length = 1 := by
    intro e
    simp only [TraceCli.runCli, hc, ht, hs]
    simp [logToDynatrace_posted]
  exact ⟨hrun e1, by simp [hrun e1, hrun e2]⟩

open CiTrace in
/-- C7 witness: the theorem evaluated at a concrete invocation repeated
twice (the second POST failing does not change the count of attempts). -/
theorem end_not_idempotent_witness :
    (TraceCli.runCli argvEnd envW).posts.length = 1 ∧
    ((TraceCli.runCli argvEnd envW).posts ++ (TraceCli.runCli argvEnd envFail).posts).length = 2 :=
  end_not_idempotent argvEnd envW envFail rfl rfl rfl

open CiTrace in
/-- C8: a well-formed `start` invocation prints exactly the two lines
`trace_id=<id>` and `parent_span_id=<id>`, where the trace id is 32 hex
characters (128 bits), the span id 16 hex characters (64 bits), and two
invocations whose id generators drew distinct random bytes print distinct
trace ids — so any number of invocations with pairwise distinct randomness
collide nowhere. -/
theorem start_prints_valid_distinct_ids (argv : List String) (env env2 : Env)
    (hc : argv.headD "" = "start")
    (hlen : env.traceRandom.length = 16) (hbytes : ∀ b ∈ env.traceRandom, b < 256)
    (hslen : env.spanRandom.length = 8) (hsbytes : ∀ b ∈ env.spanRandom, b < 256)
    (hlen2 : env2.traceRandom.length = 16) (hbytes2 : ∀ b ∈ env2.traceRandom, b < 256)
    (hdist : env.traceRandom ≠ env2.traceRandom) :
    (TraceCli.runCli argv env).stdout =
      ["trace_id=" ++ hexId env.traceRandom,
       "parent_span_id=" ++ hexId env.spanRandom] ∧
    (hexId env.traceRandom).length = 32 ∧
    (∀ c ∈ (hexId env.traceRandom).data, isHexChar c = true) ∧
    (hexId env.spanRandom).length = 16 ∧
    (∀ c ∈ (hexId env.spanRandom).data, isHexChar c = true) ∧
    hexId env.traceRandom ≠ hexId env2.traceRandom := by
  refine ⟨?_, ?_, ?_, ?_, ?_, ?_⟩
  · simp only [TraceCli.runCli, hc]
    simp [Env.freshTraceId, Env.freshSpanId]
  · rw [hexId_length, hlen]
  · intro c hcm
    exact hexOfBytes_hex _ hbytes c hcm
  · rw [hexId_length, hslen]
  · intro c hcm
    exact hexOfBytes_hex _ hsbytes c hcm
  · exact hexId_inj hbytes hbytes2 (by omega) hdist

open CiTrace in
/-- C8 witness: the theorem evaluated at two concrete environments with
different randomness. -/
theorem start_prints_valid_distinct_ids_witness :
    (TraceCli.runCli ["start", "--step=Build"] envW).stdout =
      ["trace_id=" ++ hexId envW.traceRandom,
       "parent_span_id=" ++ hexId envW.spanRandom] ∧
    (hexId envW.traceRandom).length = 32 ∧
    hexId envW.traceRandom ≠ hexId envW2.traceRandom :=
  ⟨(start_prints_valid_distinct_ids ["start", "--step=Build"] envW envW2 rfl rfl
      (by decide) rfl (by decide) rfl (by decide) (by decide)).1,
   (start_prints_valid_distinct_ids ["start", "--step=Build"] envW envW2 rfl rfl
      (by decide) rfl (by decide) rfl (by decide) (by decide)).2.1,
   (start_prints_valid_distinct_ids ["start", "--step=Build"] envW envW2 rfl rfl
      (by decide) rfl (by decide) rfl (by decide) (by decide)).2.2.2.2.2⟩

open CiTrace in
/-- C9: for every payload and every transport outcome — success, non-ok
HTTP status, or a thrown fetch exception — `logToDynatrace` never raises
past itself: the attempt is made, the result is logged locally, the
function returns normally, and the process exit code of any invocation is
unaffected by the transport outcome. -/
theorem log_emitter_never_raises :
    (∀ (t : TransportOutcome) (p : Payload),
      (logToDynatrace t p).raised = none ∧
      (logToDynatrace t p).posted = [p] ∧
      (logToDynatrace t p).localLog ≠ []) ∧
    (∀ (argv : List String) (env : Env) (t t2 : TransportOutcome),
      (TraceCli.runCli argv { env with transport := t }).exitCode =
      (TraceCli.runCli argv { env with transport := t2 }).exitCode) := by
  constructor
  · intro t p
    exact ⟨logToDynatrace_raised t p, logToDynatrace_posted t p,
      logToDynatrace_localLog_ne t p⟩
  · intro argv env t t2
    simp only [TraceCli.runCli]
    repeat' split
    all_goals rfl

open CiTrace in
/-- C10: an invocation without a `--step` argument does not fail: the step
name silently defaults to `"Unnamed"` in `src/trace-cli.js` and
`"Unnamed Step"` in the final revision, and the spans and log records are
created under that placeholder name with exit code 0. -/
theorem missing_step_defaults_placeholder (argv : List String) (envA envB : Env)
    (hstep : getArg argv "step" = none)
    (hc : argv.headD "" = "end-child")
    (ht : truthy (getArg argv "trace-id") = true)
    (hs : truthy (getArg argv "span-id") = true) :
    ((TraceCli.runCli argv envA).exitCode = 0 ∧
     (TraceCli.runCli argv envA).posts.map Payload.step = ["Unnamed"] ∧
     (TraceCli.runCli argv envA).endedSpans = ["Unnamed - end"]) ∧
    ((TraceCliFinal.runCli argv envB).exitCode = 0 ∧
     (TraceCliFinal.runCli argv envB).posts.map Payload.step = ["Unnamed Step"] ∧
     (TraceCliFinal.runCli argv envB).endedSpans = ["Unnamed Step - complete"]) := by
  constructor <;>
  · simp only [TraceCli.runCli, TraceCliFinal.runCli, hc, hstep, ht, hs]
    simp [logToDynatrace_posted, jsOr]

open CiTrace in
/-- C10 witness: the theorem evaluated at a concrete invocation with no
step argument. -/
theorem missing_step_defaults_placeholder_witness :
    ((TraceCli.runCli ["end-child", "--trace-id=" ++ tidW, "--span-id=" ++ sidW] envW).exitCode = 0 ∧
     (TraceCli.runCli ["end-child", "--trace-id=" ++ tidW, "--span-id=" ++ sidW] envW).posts.map
       Payload.step = ["Unnamed"] ∧
     (TraceCli.runCli ["end-child", "--trace-id=" ++ tidW, "--span-id=" ++ sidW] envW).endedSpans =
       ["Unnamed - end"]) ∧
    ((TraceCliFinal.runCli ["end-child", "--trace-id=" ++ tidW, "--span-id=" ++ sidW] envW).exitCode = 0 ∧
     (TraceCliFinal.runCli ["end-child", "--trace-id=" ++ tidW, "--span-id=" ++ sidW] envW).posts.map
       Payload.step = ["Unnamed Step"] ∧
     (TraceCliFinal.runCli ["end-child", "--trace-id=" ++ tidW, "--span-id=" ++ sidW] envW).endedSpans =
       ["Unnamed Step - complete"]) :=
  missing_step_defaults_placeholder
    ["end-child", "--trace-id=" ++ tidW, "--span-id=" ++ sidW] envW envW rfl rfl rfl rfl

namespace B64

theorem decChar_encChar : ∀ n, n < 64 → decChar (encChar n) = some n := by
  decide

theorem enc3_lt_64 : ∀ (bs : List Nat), (∀ b ∈ bs, b < 256) → ∀ x ∈ enc3 bs, x < 64
  | [] => by
      intro _ x hx
      simp [enc3] at hx
  | [a] => by
      intro h x hx
      have ha : a < 256 := h a (by simp)
      simp only [enc3, List.mem_cons, List.not_mem_nil, or_false] at hx
      rcases hx with rfl | rfl <;> omega
  | [a, b] => by
      intro h x hx
      have ha : a < 256 := h a (by simp)
      have hb : b < 256 := h b (by simp)
      simp only [enc3, List.mem_cons, List.not_mem_nil, or_false] at hx
      rcases hx with rfl | rfl | rfl <;> omega
  | a :: b :: c :: rest => by
      intro h x hx
      have ha : a < 256 := h a (by simp)
      have hb : b < 256 := h b (by simp)
      have hc : c < 256 := h c (by simp)
      have ih := enc3_lt_64 rest (fun y hy =>
        h y (List.mem_cons_of_mem a (List.mem_cons_of_mem b (List.mem_cons_of_mem c hy))))
      simp only [enc3, List.mem_cons] at hx
      rcases hx with rfl | rfl | rfl | rfl | hx
      · omega
      · omega
      · omega
      · omega
      · exact ih x hx

theorem dec4_enc3 : ∀ (bs : List Nat), (∀ b ∈ bs, b < 256) → dec4 (enc3 bs) = bs
  | [] => fun _ => rfl
  | [a] => by
      intro h
      have ha : a < 256 := h a (by simp)
      simp only [enc3, dec4, List.cons.injEq, and_true]
      omega
  | [a, b] => by
      intro h
      have ha : a < 256 := h a (by simp)
      have hb : b < 256 := h b (by simp)
      simp only [enc3, dec4, List.cons.injEq, and_true]
      constructor <;> omega
  | a :: b :: c :: rest => by
      intro h
      have ha : a < 256 := h a (by simp)
      have hb : b < 256 := h b (by simp)
      have hc : c < 256 := h c (by simp)
      have ih := dec4_enc3 rest (fun y hy =>
        h y (List.mem_cons_of_mem a (List.mem_cons_of_mem b (List.mem_cons_of_mem c hy))))
      simp only [enc3]
      simp only [dec4, ih, List.cons.injEq, and_true]
      refine ⟨by omega, by omega, by omega⟩

theorem filterMap_decChar_map_encChar :
    ∀ (l : List Nat), (∀ x ∈ l, x < 64) → (l.map encChar).filterMap decChar = l := by
  intro l
  induction l with
  | nil => intro _; rfl
  | cons x xs ih =>
      intro h
      have hx : x < 64 := h x (by simp)
      simp only [List.map_cons, List.filterMap_cons, decChar_encChar x hx]
      rw [ih (fun y hy => h y (List.mem_cons_of_mem x hy))]

theorem filterMap_decChar_padChars (n : Nat) :
    (padChars n).filterMap decChar = [] := by
  unfold padChars
  split
  · rfl
  · split <;> rfl

theorem decodeChars_encodeBytes (bs : List Nat) (h : ∀ b ∈ bs, b < 256) :
    decodeChars (encodeBytes bs) = bs := by
  unfold decodeChars encodeBytes
  rw [List.filterMap_append, filterMap_decChar_map_encChar _ (enc3_lt_64 bs h),
    filterMap_decChar_padChars, List.append_nil, dec4_enc3 bs h]

theorem decodeStr_encodeStr (s : String) (h : ∀ c ∈ s.data, c.toNat < 128) :
    decodeStr (encodeStr s) = s := by
  unfold decodeStr encodeStr
  have hbytes : ∀ b ∈ s.data.map Char.toNat, b < 256 := by
    intro b hb
    simp only [List.mem_map] at hb
    obtain ⟨c, hc, rfl⟩ := hb
    have := h c hc
    omega
  rw [show (String.mk (encodeBytes (s.data.map Char.toNat))).data
        = encodeBytes (s.data.map Char.toNat) from rfl]
  rw [decodeChars_encodeBytes _ hbytes, List.map_map]
  have hcomp : (Char.ofNat ∘ Char.toNat) = id := funext (fun c => Char.ofNat_toNat c)
  rw [hcomp, List.map_id]

end B64

namespace TraceCliFs

theorem isPrefixOf_refl_append (pat r : List Char) :
    List.isPrefixOf pat (pat ++ r) = true := by
  induction pat with
  | nil => simp [List.isPrefixOf]
  | cons c cs ih => simp [List.isPrefixOf, ih]

theorem expectLit_append (pat r : List Char) :
    expectLit pat (pat ++ r) = some r := by
  simp [expectLit, isPrefixOf_refl_append, List.drop_left]

theorem takeStr_append (v : List Char) (hv : '"' ∉ v) (r : List Char) :
    takeStr (v ++ '"' :: r) = some (v, r) := by
  induction v with
  | nil => simp [takeStr]
  | cons c cs ih =>
      have hc : ¬(c = '"') := by
        intro hcq
        exact hv (hcq ▸ List.mem_cons_self c cs)
      have hcs : '"' ∉ cs := fun hx => hv (List.mem_cons_of_mem c hx)
      simp [takeStr, hc, ih hcs]

theorem jsonParseCtx_jsonOfCtx (c : TraceCtx)
    (h1 : '"' ∉ c.trace_id.data) (h2 : '"' ∉ c.parent_span_id.data) :
    jsonParseCtx (jsonOfCtx c) = some c := by
  have hdata : (jsonOfCtx c).data
      = ("\x7b\"trace_id\":\"" : String).data
        ++ (c.trace_id.data
        ++ ('"' :: ((",\"parent_span_id\":\"" : String).data
        ++ (c.parent_span_id.data ++ ('"' :: ("\x7d" : String).data))))) := by
    simp [jsonOfCtx, String.data_append, List.append_assoc]
  simp only [jsonParseCtx, hdata, expectLit_append, takeStr_append _ h1,
    takeStr_append _ h2]
  rfl

theorem plain_no_quote {s : String} (h : ∀ ch ∈ s.data, plainChar ch = true) :
    '"' ∉ s.data := by
  intro hq
  have hp := h _ hq
  exact absurd hp (by decide)

theorem plain_ascii {s : String} (h : ∀ ch ∈ s.data, plainChar ch = true) :
    ∀ ch ∈ s.data, ch.toNat < 128 := by
  intro ch hch
  have hp := h ch hch
  simp only [plainChar, Bool.and_eq_true, decide_eq_true_eq] at hp
  exact hp.1.1.2

theorem jsonOfCtx_ascii (c : TraceCtx)
    (h1 : ∀ ch ∈ c.trace_id.data, plainChar ch = true)
    (h2 : ∀ ch ∈ c.parent_span_id.data, plainChar ch = true) :
    ∀ ch ∈ (jsonOfCtx c).data, ch.toNat < 128 := by
  have hL1 : ∀ ch ∈ ("\x7b\"trace_id\":\"" : String).data, ch.toNat < 128 := by decide
  have hL2 : ∀ ch ∈ ("\",\"parent_span_id\":\"" : String).data, ch.toNat < 128 := by decide
  have hL3 : ∀ ch ∈ ("\"\x7d" : String).data, ch.toNat < 128 := by decide
  intro ch hch
  simp only [jsonOfCtx, String.data_append, List.mem_append] at hch
  rcases hch with (((hA | hT) | hB) | hP) | hC
  · exact hL1 ch hA
  · exact plain_ascii h1 ch hT
  · exact hL2 ch hB
  · exact plain_ascii h2 ch hP
  · exact hL3 ch hC

theorem decodeCtx_encodeCtx (c : TraceCtx)
    (h1 : ∀ ch ∈ c.trace_id.data, plainChar ch = true)
    (h2 : ∀ ch ∈ c.parent_span_id.data, plainChar ch = true) :
    decodeCtx (encodeCtx c) = some c := by
  unfold decodeCtx encodeCtx
  rw [B64.decodeStr_encodeStr _ (jsonOfCtx_ascii c h1 h2)]
  exact jsonParseCtx_jsonOfCtx c (plain_no_quote h1) (plain_no_quote h2)

theorem readFileSync_writeFileSync (fs : FS) (name content : String) :
    readFileSync (writeFileSync fs name content) name = content := by
  unfold readFileSync writeFileSync
  induction fs with
  | nil => simp [List.find?]
  | cons f rest ih =>
      by_cases hf : f.1 == name
      · simp only [List.filter_cons]
        have : (f.1 != name) = false := by
          simp only [bne]
          simp [hf]
        simp only [this, Bool.false_eq_true, if_false]
        exact ih
      · simp only [List.filter_cons]
        have hne : (f.1 != name) = true := by
          simp only [bne]
          simp only [Bool.not_eq_true']
          simp only [Bool.not_eq_true] at hf
          exact hf
        simp only [hne, if_true, List.cons_append, List.find?_cons]
        simp only [Bool.not_eq_true] at hf
        simp only [hf]
        exact ih

end TraceCliFs

open CiTrace TraceCliFs in
/-- C4: encoding a `TraceContext` via the Context Carrier — serializing
`\x7btrace_id, parent_span_id\x7d` as base64 JSON into the
`.trace_context` hand-off file — and then decoding it in a fresh process
(reading the file, base64-decoding and JSON-parsing it) yields the
identical context: the file read returns exactly what was written, and
`decodeCtx (encodeCtx c) = some c`, for every context whose identifiers
consist of plain (printable-ASCII, quote-free, backslash-free) characters,
as hex identifiers do. -/
theorem carrier_roundtrip (c : TraceCtx) (fs : FS)
    (h1 : ∀ ch ∈ c.trace_id.data, plainChar ch = true)
    (h2 : ∀ ch ∈ c.parent_span_id.data, plainChar ch = true) :
    readFileSync (writeFileSync fs ".trace_context" (encodeCtx c)) ".trace_context"
      = encodeCtx c ∧
    decodeCtx (encodeCtx c) = some c :=
  ⟨readFileSync_writeFileSync fs ".trace_context" (encodeCtx c),
   decodeCtx_encodeCtx c h1 h2⟩

open CiTrace TraceCliFs in
/-- C4 witness: the round trip evaluated on a concrete context. -/
theorem carrier_roundtrip_witness :
    readFileSync (writeFileSync fsNoCtx ".trace_context"
      (encodeCtx ⟨tidW, sidW⟩)) ".trace_context" = encodeCtx ⟨tidW, sidW⟩ ∧
    decodeCtx (encodeCtx ⟨tidW, sidW⟩) = some ⟨tidW, sidW⟩ :=
  carrier_roundtrip ⟨tidW, sidW⟩ fsNoCtx (by decide) (by decide)

open CiTrace TraceCliFs in
/-- C6: the Carrier's decode tolerates an absent hand-off file — `end`
with no `.trace_context` present completes with exit code 0 (and still
emits its record), and `end-child` given explicit identifiers completes
with exit code 0 whether or not its `.child-*` file exists — and after an
`end` invocation completes, no hand-off files remain: every file left in
the working directory is neither `.trace_context` nor a `.child-*` file. -/
theorem end_cleans_handoff_files (fs : FS) (env : Env) (argv : List String) :
    (existsSync fs ".trace_context" = false →
      (endCmd fs env argv).status = .completed 0 ∧
      (endCmd fs env argv).posts.length = 1) ∧
    ((endCmd fs env argv).status = .completed 0 →
      ∀ f ∈ (endCmd fs env argv).fs,
        f.1 ≠ ".trace_context" ∧ List.isPrefixOf ".child-".data f.1.data = false) ∧
    (truthy (getArg argv "trace-id") = true →
      truthy (getArg argv "span-id") = true →
      (endChildCmd fs env argv).status = .completed 0 ∧
      (endChildCmd fs env argv).posts.length = 1) := by
  refine ⟨?_, ?_, ?_⟩
  · intro hex
    simp [endCmd, hex, logToDynatrace_posted]
  · intro hst f hf
    cases hex : existsSync fs ".trace_context" with
    | true =>
        cases hdec : decodeCtx (readFileSync fs ".trace_context") with
        | none =>
            simp only [endCmd, hex, if_true, hdec] at hst
            exact absurd hst (by simp)
        | some c =>
            simp only [endCmd, hex, if_true, hdec] at hf
            obtain ⟨hf1, hp⟩ := List.mem_filter.mp hf
            obtain ⟨_, hq⟩ := List.mem_filter.mp hf1
            constructor
            · simpa [bne_iff_ne] using hq
            · simpa using hp
    | false =>
        simp only [endCmd, hex] at hf
        simp only [Bool.false_eq_true, if_false] at hf
        obtain ⟨hmem, hp⟩ := List.mem_filter.mp hf
        constructor
        · simp only [existsSync, List.any_eq_false] at hex
          have := hex f hmem
          simpa using this
        · simpa using hp
  · intro ht hs
    simp [endChildCmd, ht, hs, logToDynatrace_posted]

open CiTrace TraceCliFs in
/-- C6 witness: the theorem evaluated on concrete working directories,
one holding a written context plus a stale child file and one holding no
hand-off file at all. -/
theorem end_cleans_handoff_files_witness :
    ((endCmd fsNoCtx envW ["end", "--step=Build"]).status = .completed 0 ∧
     (endCmd fsNoCtx envW ["end", "--step=Build"]).posts.length = 1) ∧
    (∀ f ∈ (endCmd fsW envW ["end", "--step=Build"]).fs,
       f.1 ≠ ".trace_context" ∧ List.isPrefixOf ".child-".data f.1.data = false) ∧
    ((endChildCmd fsNoCtx envW argvEndChild).status = .completed 0 ∧
     (endChildCmd fsNoCtx envW argvEndChild).posts.length = 1) :=
  ⟨(end_cleans_handoff_files fsNoCtx envW ["end", "--step=Build"]).1 (by decide),
   (end_cleans_handoff_files fsW envW ["end", "--step=Build"]).2.1 (by decide),
   (end_cleans_handoff_files fsNoCtx envW argvEndChild).2.2 (by decide) (by decide)⟩

open CiTrace in
/-- C9 witness: the theorem evaluated at a concrete payload and concrete
transport outcomes. -/
theorem log_emitter_never_raises_witness :
    ((logToDynatrace (.thrown "ECONNREFUSED") payloadW).raised = none ∧
     (logToDynatrace (.thrown "ECONNREFUSED") payloadW).posted = [payloadW] ∧
     (logToDynatrace (.thrown "ECONNREFUSED") payloadW).localLog ≠ []) ∧
    (TraceCli.runCli argvEnd { envW with transport := .thrown "ECONNREFUSED" }).exitCode =
      (TraceCli.runCli argvEnd { envW with transport := .ok }).exitCode :=
  ⟨log_emitter_never_raises.1 (.thrown "ECONNREFUSED") payloadW,
   log_emitter_never_raises.2 argvEnd envW (.thrown "ECONNREFUSED") .ok⟩
